import Mathlib

/-!
Shallow embedding of the client-side SyncPlay core of the jellyfin-chromecast
receiver application, covering the Manager facade (`syncPlayManager.js`), the
PlaybackCore command scheduler and drift corrector (`syncPlayPlaybackCore`),
and the QueueCore update guard (`syncPlayQueueCore`).

Conventions of the embedding:
- wall-clock instants (`Date.getTime()`) are integers counting milliseconds;
- tick and millisecond arithmetic performed on JS numbers is carried out in ℚ;
- ambient reads (current date, player wrapper flags, playback manager state)
  are collected in environment structures passed to each function;
- player-visible side operations are reified as an `Effect` list returned next
  to the updated state.
-/

namespace SyncPlay

/-- Milliseconds since epoch, the value of `Date.getTime()`. -/
abbrev Time := Int

/-- `TicksPerMillisecond` from `syncPlayHelper.js`. -/
def TicksPerMillisecond : ℚ := 10000

/-- The four playback command kinds handled by `applyCommand`. -/
inductive CommandType where
  | unpause
  | pause
  | seek
  | stop
  deriving DecidableEq, Repr

/-- A playback command after `processCommand` has parsed the wire fields:
`When`/`EmittedAt` are instants, `PositionTicks` is nullable. -/
structure PlaybackCommand where
  Command : CommandType
  When : Time
  EmittedAt : Time
  PositionTicks : Option Int
  PlaylistItemId : String
  deriving DecidableEq, Repr

/-- Group info as carried by `GroupJoined` / `GroupUpdate`; `enableSyncPlay`
only reads `LastUpdatedAt` (as a parsed date). -/
structure GroupInfo where
  GroupId : String
  LastUpdatedAt : Time
  deriving DecidableEq, Repr

/-- JS arithmetic coerces `null` to `0`; nullable tick values entering
numeric expressions do the same here. -/
def ticksQ (o : Option Int) : ℚ := ((o.getD 0 : Int) : ℚ)

/-! ## Queue model and `updatePlayQueue` (QueueCore) -/

/-- A `PlayQueueUpdate` from the server, after `updatePlayQueue` parsed
`LastUpdate` into a date. -/
structure PlayQueueUpdate where
  LastUpdate : Time
  Reason : String
  Playlist : List String
  PlayingItemIndex : Int
  StartPositionTicks : Int
  deriving DecidableEq, Repr

/-- Modelled from the spec: the QueueModel held by `SyncPlayQueueManager`
(the module `syncPlayQueueManager` itself is not among the sources, only its
callers are): `apply(update)` stores the update's playlist fields and its
`lastUpdate` instant, and `lastUpdateTime()` reads the stored instant back. -/
structure QueueModel where
  lastUpdateTime : Time
  playlist : List String
  currentIndex : Int
  startPositionTicks : Int
  deriving DecidableEq, Repr

/-- Modelled from the spec: `onPlayQueueUpdate` stores the update into the
queue model, making `lastUpdateTime()` return the update's `LastUpdate`. -/
def onPlayQueueUpdate (q : QueueModel) (u : PlayQueueUpdate) : QueueModel :=
  { q with
    lastUpdateTime := u.LastUpdate
    playlist := u.Playlist
    currentIndex := u.PlayingItemIndex
    startPositionTicks := u.StartPositionTicks }

/-- Result of `updatePlayQueue`: either the update was applied to the queue
model or it was discarded as stale. -/
inductive UpdateResult where
  | applied
  | discarded
  deriving DecidableEq, Repr

/-- The staleness guard of `SyncPlayQueueCore.updatePlayQueue`: an update whose
`LastUpdate` is not strictly newer than `getLastUpdateTime()` is ignored,
otherwise `onPlayQueueUpdate` applies it. -/
def updatePlayQueue (q : QueueModel) (u : PlayQueueUpdate) :
    QueueModel × UpdateResult :=
  if u.LastUpdate ≤ q.lastUpdateTime then
    (q, UpdateResult.discarded)
  else
    (onPlayQueueUpdate q u, UpdateResult.applied)

/-- Folds a history of queue updates through `updatePlayQueue`. -/
def runQueue (q : QueueModel) : List PlayQueueUpdate → QueueModel
  | [] => q
  | u :: us => runQueue (updatePlayQueue q u).1 us

/-- The `LastUpdate` instants of the updates a history actually applies,
in order of arrival. -/
def appliedTimes (q : QueueModel) : List PlayQueueUpdate → List Time
  | [] => []
  | u :: us =>
    if u.LastUpdate ≤ q.lastUpdateTime then
      appliedTimes q us
    else
      u.LastUpdate :: appliedTimes (onPlayQueueUpdate q u) us

/-! ## Manager session state and `processCommand` (`syncPlayManager.js`) -/

/-- The mutable session fields of `SyncPlayManager` that the playback-command
path touches (`groupInfo`, `syncPlayEnabledAt`, `syncPlayReady`,
`queuedCommand`, `followingGroupPlayback`, `lastPlaybackCommand`). -/
structure ManagerState where
  groupInfo : Option GroupInfo
  syncPlayEnabledAt : Option Time
  syncPlayReady : Bool
  queuedCommand : Option PlaybackCommand
  followingGroupPlayback : Bool
  lastPlaybackCommand : Option PlaybackCommand
  deriving DecidableEq, Repr

/-- The constructor state of `SyncPlayManager`. -/
def initialManagerState : ManagerState :=
  { groupInfo := none
    syncPlayEnabledAt := none
    syncPlayReady := false
    queuedCommand := none
    followingGroupPlayback := true
    lastPlaybackCommand := none }

/-- Ambient reads performed by `processCommand`: whether a player wrapper
reports active playback, and the queue core's current playlist item id. -/
structure ManagerEnv where
  isPlaybackActive : Bool
  currentPlaylistItemId : String
  deriving DecidableEq, Repr

/-- Which exit `processCommand` took; `applied` is the one call site of
`PlaybackCore.applyCommand`. -/
inductive ProcessResult where
  | noCommand
  | notEnabled
  | oldCommand
  | commandQueued
  | noActivePlayer
  | playlistMismatch
  | applied
  deriving DecidableEq, Repr

/-- `SyncPlayManager.processCommand` on an already parsed command: the guard
chain (null command, not enabled, stale `EmittedAt`, not ready, record
`lastPlaybackCommand`, inactive player, playlist item mismatch) followed by
the dispatch into `PlaybackCore.applyCommand`. -/
def processCommand (s : ManagerState) (env : ManagerEnv)
    (cmd : Option PlaybackCommand) : ManagerState × ProcessResult :=
  match cmd with
  | none => (s, ProcessResult.noCommand)
  | some cmd =>
    match s.syncPlayEnabledAt with
    | none => (s, ProcessResult.notEnabled)
    | some enabledAt =>
      if cmd.EmittedAt < enabledAt then
        (s, ProcessResult.oldCommand)
      else if !s.syncPlayReady then
        ({ s with queuedCommand := some cmd }, ProcessResult.commandQueued)
      else
        let s := { s with lastPlaybackCommand := some cmd }
        if !env.isPlaybackActive then
          (s, ProcessResult.noActivePlayer)
        else if cmd.PlaylistItemId ≠ env.currentPlaylistItemId then
          (s, ProcessResult.playlistMismatch)
        else
          (s, ProcessResult.applied)

/-- The session-state part of `enableSyncPlay`: store the group info, set
`syncPlayEnabledAt` from the group's `LastUpdatedAt`, reset `syncPlayReady`
and `followingGroupPlayback`; `queuedCommand` and `lastPlaybackCommand` are
left alone. -/
def enableSyncPlay (s : ManagerState) (gi : GroupInfo) : ManagerState :=
  { s with
    groupInfo := some gi
    syncPlayEnabledAt := some gi.LastUpdatedAt
    syncPlayReady := false
    followingGroupPlayback := true }

/-- The body of the waiter `enableSyncPlay` arms on the first
`time-sync-server-update` event: set `syncPlayReady`, run the stored
`queuedCommand` through `processCommand`, then clear `queuedCommand`. -/
def onTimeSyncUpdate (s : ManagerState) (env : ManagerEnv) :
    ManagerState × ProcessResult :=
  let s1 := { s with syncPlayReady := true }
  let r := processCommand s1 env s.queuedCommand
  ({ r.1 with queuedCommand := none }, r.2)

/-- The session-state part of `disableSyncPlay`: clear `syncPlayEnabledAt`,
`syncPlayReady`, `lastPlaybackCommand` and `queuedCommand`, reset
`followingGroupPlayback`; `groupInfo` is not touched. -/
def disableSyncPlayManager (s : ManagerState) : ManagerState :=
  { s with
    syncPlayEnabledAt := none
    syncPlayReady := false
    followingGroupPlayback := true
    lastPlaybackCommand := none
    queuedCommand := none }

/-- The events that mutate the manager's session state. -/
inductive ManagerEvent where
  | enable (gi : GroupInfo)
  | disable
  | timeSync (env : ManagerEnv)
  | command (env : ManagerEnv) (cmd : Option PlaybackCommand)

/-- One manager transition. -/
def managerStep (s : ManagerState) : ManagerEvent → ManagerState
  | ManagerEvent.enable gi => enableSyncPlay s gi
  | ManagerEvent.disable => disableSyncPlayManager s
  | ManagerEvent.timeSync env => (onTimeSyncUpdate s env).1
  | ManagerEvent.command env cmd => (processCommand s env cmd).1

/-- Runs a history of manager events from a state. -/
def managerRun (s : ManagerState) (es : List ManagerEvent) : ManagerState :=
  es.foldl managerStep s

/-- The session-state invariant: a queued command can only exist while
SyncPlay is not yet ready. -/
def QueuedImpliesNotReady (s : ManagerState) : Prop :=
  s.queuedCommand ≠ none → s.syncPlayReady = false

/-! ## PlaybackCore (`syncPlayPlaybackCore`) -/

/-- Ambient reads performed by the playback core during one call: the current
date, the time-sync offset, the player wrapper's flags, the playback manager's
reported position and pause state, and the value drawn for the random seek
jitter (in milliseconds, already rounded). -/
structure CoreEnv where
  now : Time
  timeOffset : Int
  isRemote : Bool
  isPlaybackActive : Bool
  currentTimeMillis : ℚ
  isPaused : Bool
  randomOffsetMillis : Int
  deriving DecidableEq, Repr

/-- Modelled from the spec: `TimeSyncCore.remoteDateToLocal` (the time-sync
module is not among the sources); the conversion helpers apply the estimated
offset `remote − local`, so a remote instant maps to `t − offset` locally. -/
def remoteDateToLocal (env : CoreEnv) (t : Time) : Time := t - env.timeOffset

/-- Modelled from the spec: `TimeSyncCore.localDateToRemote` applies the
offset in the other direction, `t + offset`. -/
def localDateToRemote (env : CoreEnv) (t : Time) : Time := t + env.timeOffset

/-- `estimateCurrentTicks(ticks, when)`: extrapolates a past position to the
present using the remote clock. -/
def estimateCurrentTicks (env : CoreEnv) (ticks : ℚ) (when : Time) : ℚ :=
  ticks + ((localDateToRemote env env.now - when : Int) : ℚ) * TicksPerMillisecond

/-- Callback kinds that can sit armed in `scheduledCommandTimeout`. -/
inductive ScheduledKind where
  | unpauseCb
  | pauseCb (positionTicks : Option Int)
  | stopCb
  | seekCb (positionTicks : ℚ)
  deriving DecidableEq, Repr

/-- Observable side operations of the playback core: commands issued towards
the local player (via the `local*` helpers), playback-rate changes, one-shot
event waiters registered with `waitForEventOnce`, OSD/icon events and
buffering requests. -/
inductive Effect where
  | playerUnpause
  | playerPause
  | playerStop
  | playerSeek (ticks : ℚ)
  | setPlaybackRate (rate : ℚ)
  | notifyOsd (action : String)
  | waitUnpauseThenSeek (ticks : ℚ)
  | waitPauseThenSeek (ticks : Option Int)
  | waitPlayingThenPauseAndReport (ticks : ℚ)
  | sendBufferingRequest (isBuffering : Bool)
  | clearSyncIcon
  | showSyncIcon (method : String)
  deriving DecidableEq, Repr

/-- The mutable fields of `SyncPlayPlaybackCore`, including the settings
loaded by `loadPreferences` and the three timer slots. -/
structure CoreState where
  minDelaySpeedToSync : ℚ
  maxDelaySpeedToSync : ℚ
  speedToSyncDuration : ℚ
  minDelaySkipToSync : ℚ
  useSpeedToSync : Bool
  useSkipToSync : Bool
  enableSyncCorrection : Bool
  playbackRateSupported : Bool
  hasCurrentPlayer : Bool
  syncEnabled : Bool
  playbackDiffMillis : ℚ
  syncAttempts : Nat
  lastSyncTime : Time
  lastPlaybackWaiting : Option Time
  notifyBufferingArmed : Bool
  lastCommand : Option PlaybackCommand
  scheduledCommandTimeout : Option ScheduledKind
  syncTimeoutArmed : Bool
  deriving DecidableEq, Repr

/-- `minBufferingThresholdMillis` set in the core's constructor. -/
def minBufferingThresholdMillis : Int := 1000

/-- `isBuffering()`: the player has been waiting for longer than the
buffering threshold. -/
def isBuffering (env : CoreEnv) (s : CoreState) : Bool :=
  match s.lastPlaybackWaiting with
  | none => false
  | some w => decide (env.now - w > minBufferingThresholdMillis)

/-- `localUnpause`: ignored when no player is active. -/
def localUnpauseEff (env : CoreEnv) : List Effect :=
  if env.isPlaybackActive then [Effect.playerUnpause] else []

/-- `localPause`: ignored when no player is active. -/
def localPauseEff (env : CoreEnv) : List Effect :=
  if env.isPlaybackActive then [Effect.playerPause] else []

/-- `localStop`: ignored when no player is active. -/
def localStopEff (env : CoreEnv) : List Effect :=
  if env.isPlaybackActive then [Effect.playerStop] else []

/-- `localSeek`: ignored when no player is active. -/
def localSeekEff (env : CoreEnv) (ticks : ℚ) : List Effect :=
  if env.isPlaybackActive then [Effect.playerSeek ticks] else []

/-- `clearScheduledCommand()`: clears both the scheduled-command and the sync
timers, disables sync, restores playback rate 1 when a player with rate
support is bound, and clears the sync icon. -/
def clearScheduledCommand (s : CoreState) : CoreState × List Effect :=
  ({ s with
      scheduledCommandTimeout := none
      syncTimeoutArmed := false
      syncEnabled := false },
   (if s.hasCurrentPlayer && s.playbackRateSupported then
      [Effect.setPlaybackRate 1]
    else []) ++ [Effect.clearSyncIcon])

/-- `scheduleUnpause(playAtTime, positionTicks)`: with a future firing time,
optionally pre-seek and arm the one-shot unpause callback; with a past one,
register a seek on the next `unpause` event, unpause immediately, and arm the
sync-enable timer. -/
def scheduleUnpause (env : CoreEnv) (s : CoreState) (playAtTime : Time)
    (positionTicks : Option Int) : CoreState × List Effect :=
  let c := clearScheduledCommand s
  let s := c.1
  let playAtTimeLocal := remoteDateToLocal env playAtTime
  let currentPositionTicks := env.currentTimeMillis * TicksPerMillisecond
  if playAtTimeLocal > env.now then
    let seekEffs :=
      if currentPositionTicks - ticksQ positionTicks >
          s.minDelaySkipToSync * TicksPerMillisecond then
        localSeekEff env (ticksQ positionTicks)
      else []
    ({ s with scheduledCommandTimeout := some ScheduledKind.unpauseCb },
     c.2 ++ seekEffs)
  else
    let serverPositionTicks := estimateCurrentTicks env (ticksQ positionTicks) playAtTime
    ({ s with syncTimeoutArmed := true },
     c.2 ++ [Effect.waitUnpauseThenSeek serverPositionTicks] ++
       localUnpauseEff env ++ [Effect.notifyOsd "unpause"])

/-- `schedulePause(pauseAtTime, positionTicks)`: the callback registers a seek
on the next `pause` event (or on its timeout) and pauses; it is armed for a
future firing time and run immediately for a past one. -/
def schedulePause (env : CoreEnv) (s : CoreState) (pauseAtTime : Time)
    (positionTicks : Option Int) : CoreState × List Effect :=
  let c := clearScheduledCommand s
  let s := c.1
  let pauseAtTimeLocal := remoteDateToLocal env pauseAtTime
  if pauseAtTimeLocal > env.now then
    ({ s with scheduledCommandTimeout := some (ScheduledKind.pauseCb positionTicks) },
     c.2)
  else
    (s, c.2 ++ [Effect.waitPauseThenSeek positionTicks] ++ localPauseEff env)

/-- `scheduleStop(stopAtTime)`: stop now or arm the stop callback. -/
def scheduleStop (env : CoreEnv) (s : CoreState) (stopAtTime : Time) :
    CoreState × List Effect :=
  let c := clearScheduledCommand s
  let s := c.1
  let stopAtTimeLocal := remoteDateToLocal env stopAtTime
  if stopAtTimeLocal > env.now then
    ({ s with scheduledCommandTimeout := some ScheduledKind.stopCb }, c.2)
  else
    (s, c.2 ++ localStopEff env)

/-- `scheduleSeek(seekAtTime, positionTicks)`: the callback unpauses, seeks,
and registers a pause-and-report on the next `playing` event; it is armed for
a future firing time and run immediately for a past one. -/
def scheduleSeek (env : CoreEnv) (s : CoreState) (seekAtTime : Time)
    (positionTicks : ℚ) : CoreState × List Effect :=
  let c := clearScheduledCommand s
  let s := c.1
  let seekAtTimeLocal := remoteDateToLocal env seekAtTime
  if seekAtTimeLocal > env.now then
    ({ s with scheduledCommandTimeout := some (ScheduledKind.seekCb positionTicks) },
     c.2)
  else
    (s, c.2 ++ localUnpauseEff env ++ localSeekEff env positionTicks ++
      [Effect.waitPlayingThenPauseAndReport positionTicks])

/-- The duplicate test at the top of `applyCommand`: the incoming command
matches `lastCommand` on `When`, `PositionTicks`, `Command` and
`PlaylistItemId` (`EmittedAt` is not compared). -/
def isDuplicate (s : CoreState) (command : PlaybackCommand) : Bool :=
  match s.lastCommand with
  | none => false
  | some lc =>
    decide (lc.When = command.When) &&
    decide (lc.PositionTicks = command.PositionTicks) &&
    decide (lc.Command = command.Command) &&
    decide (lc.PlaylistItemId = command.PlaylistItemId)

/-- JS strict comparison `currentPositionTicks !== command.PositionTicks`:
a number never strictly equals `null`. -/
def posTicksDiffer (current : ℚ) (o : Option Int) : Bool :=
  match o with
  | none => true
  | some n => decide (current ≠ (n : ℚ))

/-- `applyCommand(command)`: the duplicate-repair branch (which runs before
everything else), then recording into `lastCommand`, then the remote
self-managed short-circuit, then dispatch by command kind. -/
def applyCommand (env : CoreEnv) (s : CoreState) (command : PlaybackCommand) :
    CoreState × List Effect :=
  if isDuplicate s command then
    let whenLocal := remoteDateToLocal env command.When
    if whenLocal > env.now then
      (s, [])
    else
      let currentPositionTicks := env.currentTimeMillis * TicksPerMillisecond
      let isPlaying := !env.isPaused
      match command.Command with
      | CommandType.unpause =>
        if !isPlaying then
          scheduleUnpause env s command.When command.PositionTicks
        else (s, [])
      | CommandType.pause =>
        if isPlaying || posTicksDiffer currentPositionTicks command.PositionTicks then
          schedulePause env s command.When command.PositionTicks
        else (s, [])
      | CommandType.stop =>
        if isPlaying then scheduleStop env s command.When else (s, [])
      | CommandType.seek =>
        if isPlaying || posTicksDiffer currentPositionTicks command.PositionTicks then
          let randomOffsetTicks := (env.randomOffsetMillis : ℚ) * TicksPerMillisecond
          scheduleSeek env s command.When (ticksQ command.PositionTicks + randomOffsetTicks)
        else
          (s, [Effect.sendBufferingRequest false])
  else
    let s := { s with lastCommand := some command }
    if env.isRemote then
      (s, [])
    else
      match command.Command with
      | CommandType.unpause => scheduleUnpause env s command.When command.PositionTicks
      | CommandType.pause => schedulePause env s command.When command.PositionTicks
      | CommandType.stop => scheduleStop env s command.When
      | CommandType.seek => scheduleSeek env s command.When (ticksQ command.PositionTicks)

/-- Firing of an armed `scheduledCommandTimeout`: the body of the closure the
corresponding `schedule*` call passed to `setTimeout`. -/
def fireScheduledCommand (env : CoreEnv) (s : CoreState) :
    CoreState × List Effect :=
  match s.scheduledCommandTimeout with
  | none => (s, [])
  | some k =>
    let s := { s with scheduledCommandTimeout := none }
    match k with
    | ScheduledKind.unpauseCb =>
      ({ s with syncTimeoutArmed := true },
       localUnpauseEff env ++ [Effect.notifyOsd "unpause"])
    | ScheduledKind.pauseCb positionTicks =>
      (s, [Effect.waitPauseThenSeek positionTicks] ++ localPauseEff env)
    | ScheduledKind.stopCb => (s, localStopEff env)
    | ScheduledKind.seekCb positionTicks =>
      (s, localUnpauseEff env ++ localSeekEff env positionTicks ++
        [Effect.waitPlayingThenPauseAndReport positionTicks])

/-- `disableSyncPlay(showMessage)`: clears the manager session fields and the
core's `syncEnabled` flag; no timer slot of the core is touched. -/
def disableSyncPlay (m : ManagerState) (c : CoreState) :
    ManagerState × CoreState :=
  (disableSyncPlayManager m, { c with syncEnabled := false })

/-! ## Drift correction (`syncPlaybackTime`) -/

/-- `speedToSyncTime` after the negative-speed fix: when the client is ahead
by at least a tenth of the duration, the duration is expanded to
`|diff| / (1 − MinSpeed)` with `MinSpeed = 0.1`. -/
def computeSpeedToSyncTime (diffMillis speedToSyncTime : ℚ) : ℚ :=
  if diffMillis ≤ -speedToSyncTime * (1 / 10) then
    |diffMillis| / (1 - 1 / 10)
  else speedToSyncTime

/-- The playback rate chosen by the SpeedToSync branch:
`1 + diff / speedToSyncTime` after the fix above. -/
def computeSpeed (diffMillis speedToSyncTime : ℚ) : ℚ :=
  1 + diffMillis / computeSpeedToSyncTime diffMillis speedToSyncTime

/-- The estimated server position for the last command, as computed inside
`syncPlaybackTime`. -/
def serverPositionTicksOf (env : CoreEnv) (lastCommand : PlaybackCommand) : ℚ :=
  estimateCurrentTicks env (ticksQ lastCommand.PositionTicks) lastCommand.When

/-- `diffMillis`: the delay between the estimated server position and the
player's reported position, in milliseconds. -/
def diffMillisOf (env : CoreEnv) (lastCommand : PlaybackCommand) : ℚ :=
  (serverPositionTicksOf env lastCommand -
    env.currentTimeMillis * TicksPerMillisecond) / TicksPerMillisecond

/-- `syncPlaybackTime()`: the throttled drift check run on every `timeupdate`;
chooses SpeedToSync, SkipToSync or no correction. -/
def syncPlaybackTime (env : CoreEnv) (s : CoreState) : CoreState × List Effect :=
  let syncMethodThreshold := s.maxDelaySpeedToSync
  if !env.isPlaybackActive then (s, [])
  else
    match s.lastCommand with
    | none => (s, [])
    | some lastCommand =>
      if lastCommand.Command ≠ CommandType.unpause || isBuffering env s then
        (s, [])
      else
        let elapsed : ℚ := ((env.now - s.lastSyncTime : Int) : ℚ)
        if elapsed < syncMethodThreshold / 2 then (s, [])
        else
          let s := { s with lastSyncTime := env.now }
          let serverPositionTicks := serverPositionTicksOf env lastCommand
          let diffMillis := diffMillisOf env lastCommand
          let s := { s with playbackDiffMillis := diffMillis }
          if s.syncEnabled && s.enableSyncCorrection then
            let absDiffMillis := |diffMillis|
            if s.playbackRateSupported && s.useSpeedToSync &&
                decide (absDiffMillis ≥ s.minDelaySpeedToSync) &&
                decide (absDiffMillis < s.maxDelaySpeedToSync) then
              let speed := computeSpeed diffMillis s.speedToSyncDuration
              ({ s with
                  syncEnabled := false
                  syncAttempts := s.syncAttempts + 1
                  syncTimeoutArmed := true },
               [Effect.setPlaybackRate speed, Effect.showSyncIcon "SpeedToSync"])
            else if s.useSkipToSync && decide (absDiffMillis ≥ s.minDelaySkipToSync) then
              ({ s with
                  syncEnabled := false
                  syncAttempts := s.syncAttempts + 1
                  syncTimeoutArmed := true },
               localSeekEff env serverPositionTicks ++ [Effect.showSyncIcon "SkipToSync"])
            else
              ({ s with syncAttempts := 0 }, [])
          else (s, [])

/-! ## Concrete instances used to evaluate the model -/

/-- A playback command used as concrete input: an Unpause for item `a`
stamped at remote instant 0 with position 0. -/
def exampleUnpauseCommand : PlaybackCommand :=
  { Command := CommandType.unpause
    When := 0
    EmittedAt := 0
    PositionTicks := some 0
    PlaylistItemId := "a" }

/-- A concrete environment: local clock at `now`, zero time-sync offset, an
active non-remote paused player reporting position 0. -/
def exampleCoreEnv (now : Time) : CoreEnv :=
  { now := now
    timeOffset := 0
    isRemote := false
    isPlaybackActive := true
    currentTimeMillis := 0
    isPaused := true
    randomOffsetMillis := 0 }

/-- A concrete core state with the default preference values of
`loadPreferences`, sync correction enabled and a supported playback rate. -/
def exampleCoreState (useSpeed : Bool) (lastCommand : Option PlaybackCommand) :
    CoreState :=
  { minDelaySpeedToSync := 60
    maxDelaySpeedToSync := 3000
    speedToSyncDuration := 1000
    minDelaySkipToSync := 400
    useSpeedToSync := useSpeed
    useSkipToSync := true
    enableSyncCorrection := true
    playbackRateSupported := true
    hasCurrentPlayer := true
    syncEnabled := true
    playbackDiffMillis := 0
    syncAttempts := 0
    lastSyncTime := -10000
    lastPlaybackWaiting := none
    notifyBufferingArmed := false
    lastCommand := lastCommand
    scheduledCommandTimeout := none
    syncTimeoutArmed := false }

/-! ## Supporting lemmas and claim theorems -/

theorem appliedTimes_chain (q : QueueModel) (us : List PlayQueueUpdate) :
    List.Chain' (· < ·) (q.lastUpdateTime :: appliedTimes q us) := by
  induction us generalizing q with
  | nil => simp [appliedTimes]
  | cons u us ih =>
    by_cases h : u.LastUpdate ≤ q.lastUpdateTime
    · simpa [appliedTimes, h] using ih q
    · have hq : (onPlayQueueUpdate q u).lastUpdateTime = u.LastUpdate := rfl
      have hchain := ih (onPlayQueueUpdate q u)
      rw [hq] at hchain
      simp only [appliedTimes, h, if_false]
      exact List.Chain'.cons (lt_of_not_le h) hchain

theorem processCommand_fst_queued (s : ManagerState) (env : ManagerEnv)
    (cmd : Option PlaybackCommand) :
    (processCommand s env cmd).1.queuedCommand = s.queuedCommand ∨
      ((processCommand s env cmd).1.queuedCommand = cmd ∧
        (processCommand s env cmd).1.syncPlayReady = false ∧
        s.syncPlayReady = false) := by
  match cmd with
  | none => exact Or.inl rfl
  | some cmd =>
    match hs : s.syncPlayEnabledAt with
    | none => exact Or.inl (by simp [processCommand, hs])
    | some enabledAt =>
      by_cases h1 : cmd.EmittedAt < enabledAt
      · exact Or.inl (by simp [processCommand, hs, h1])
      · by_cases h2 : s.syncPlayReady
        · refine Or.inl ?_
          by_cases h3 : env.isPlaybackActive
          · by_cases h4 : cmd.PlaylistItemId = env.currentPlaylistItemId <;>
              simp [processCommand, hs, h1, h2, h3, h4]
          · simp [processCommand, hs, h1, h2, h3]
        · refine Or.inr ?_
          simp only [Bool.not_eq_true] at h2
          refine ⟨?_, ?_, h2⟩ <;> simp [processCommand, hs, h1, h2]

theorem processCommand_preserves_ready (s : ManagerState) (env : ManagerEnv)
    (cmd : Option PlaybackCommand) :
    (processCommand s env cmd).1.syncPlayReady = s.syncPlayReady := by
  match cmd with
  | none => rfl
  | some cmd =>
    match hs : s.syncPlayEnabledAt with
    | none => simp [processCommand, hs]
    | some enabledAt =>
      by_cases h1 : cmd.EmittedAt < enabledAt
      · simp [processCommand, hs, h1]
      · by_cases h2 : s.syncPlayReady
        · by_cases h3 : env.isPlaybackActive
          · by_cases h4 : cmd.PlaylistItemId = env.currentPlaylistItemId <;>
              simp [processCommand, hs, h1, h2, h3, h4]
          · simp [processCommand, hs, h1, h2, h3]
        · simp [processCommand, hs, h1, h2]

theorem managerStep_invariant (s : ManagerState) (e : ManagerEvent)
    (h : QueuedImpliesNotReady s) : QueuedImpliesNotReady (managerStep s e) := by
  cases e with
  | enable gi => intro _; rfl
  | disable => intro hq; rfl
  | timeSync env => intro hq; exact absurd rfl hq
  | command env cmd =>
    intro hq
    rcases processCommand_fst_queued s env cmd with hsame | ⟨_, hready, _⟩
    · show (processCommand s env cmd).1.syncPlayReady = false
      rw [processCommand_preserves_ready]
      exact h (by rwa [show (managerStep s (ManagerEvent.command env cmd)) =
        (processCommand s env cmd).1 from rfl, hsame] at hq)
    · exact hready

theorem managerRun_invariant (es : List ManagerEvent) :
    QueuedImpliesNotReady (managerRun initialManagerState es) := by
  have hgen : ∀ (es : List ManagerEvent) (s : ManagerState),
      QueuedImpliesNotReady s → QueuedImpliesNotReady (managerRun s es) := by
    intro es
    induction es with
    | nil => intro s h; exact h
    | cons e es ih => intro s h; exact ih _ (managerStep_invariant s e h)
  exact hgen es initialManagerState (fun h => rfl)

/-- C6: `updatePlayQueue` applies an update exactly when its `LastUpdate` is
strictly newer than the stored last-update time; a stale update is discarded
with the queue model unchanged, and over every history the applied
`LastUpdate` values are strictly increasing. -/
theorem C6_updatePlayQueue_strictly_monotone (q : QueueModel)
    (u : PlayQueueUpdate) (us : List PlayQueueUpdate) :
    (u.LastUpdate ≤ q.lastUpdateTime →
      updatePlayQueue q u = (q, UpdateResult.discarded)) ∧
    (q.lastUpdateTime < u.LastUpdate →
      updatePlayQueue q u = (onPlayQueueUpdate q u, UpdateResult.applied)) ∧
    List.Chain' (· < ·) (appliedTimes q us) := by
  refine ⟨?_, ?_, (appliedTimes_chain q us).tail⟩
  · intro h; simp [updatePlayQueue, h]
  · intro h; simp [updatePlayQueue, not_le.mpr h]

theorem C6_updatePlayQueue_strictly_monotone_witness :
    updatePlayQueue ⟨100, ["a"], 0, 0⟩ ⟨50, "NewPlaylist", ["b"], 0, 0⟩ =
      (⟨100, ["a"], 0, 0⟩, UpdateResult.discarded) ∧
    updatePlayQueue ⟨100, ["a"], 0, 0⟩ ⟨150, "NewPlaylist", ["b"], 0, 0⟩ =
      (⟨150, ["b"], 0, 0⟩, UpdateResult.applied) :=
  ⟨(C6_updatePlayQueue_strictly_monotone ⟨100, ["a"], 0, 0⟩
      ⟨50, "NewPlaylist", ["b"], 0, 0⟩ []).1 (by decide),
   (C6_updatePlayQueue_strictly_monotone ⟨100, ["a"], 0, 0⟩
      ⟨150, "NewPlaylist", ["b"], 0, 0⟩ []).2.1 (by decide)⟩

/-- C1 (counterexample): in a session that is enabled, ready and has an
active player, a command whose `PlaylistItemId` differs from the current one
is dropped before `applyCommand`, but the session state is NOT left
unchanged: `lastPlaybackCommand` is overwritten with the dropped command
(the assignment happens before the playlist-item check). -/
theorem C1_counterexample :
    (processCommand
        ⟨none, some 0, true, none, true, none⟩
        ⟨true, "item-A"⟩
        (some ⟨CommandType.pause, 5, 3, some 0, "item-B"⟩)).2 =
      ProcessResult.playlistMismatch ∧
    (processCommand
        ⟨none, some 0, true, none, true, none⟩
        ⟨true, "item-A"⟩
        (some ⟨CommandType.pause, 5, 3, some 0, "item-B"⟩)).1.lastPlaybackCommand ≠
      (⟨none, some 0, true, none, true, none⟩ : ManagerState).lastPlaybackCommand := by
  decide

/-- C1 (amended): in a session that is enabled and ready, with an active
player and a command no older than the enable time, a `PlaylistItemId`
mismatch drops the command with a warning and `PlaybackCore.applyCommand` is
not invoked, but `lastPlaybackCommand` is set to the dropped command; all
other session fields are unchanged. -/
theorem C1_mismatch_drops_but_records (s : ManagerState) (env : ManagerEnv)
    (cmd : PlaybackCommand) (t : Time)
    (hen : s.syncPlayEnabledAt = some t)
    (hready : s.syncPlayReady = true)
    (hage : ¬ cmd.EmittedAt < t)
    (hact : env.isPlaybackActive = true)
    (hmm : cmd.PlaylistItemId ≠ env.currentPlaylistItemId) :
    processCommand s env (some cmd) =
      ({ s with lastPlaybackCommand := some cmd },
        ProcessResult.playlistMismatch) := by
  simp [processCommand, hen, hage, hready, hact, hmm]

theorem C1_mismatch_drops_but_records_witness :
    processCommand
        ⟨none, some 0, true, none, true, none⟩
        ⟨true, "item-A"⟩
        (some ⟨CommandType.pause, 5, 3, some 0, "item-B"⟩) =
      (⟨none, some 0, true, none, true,
        some ⟨CommandType.pause, 5, 3, some 0, "item-B"⟩⟩,
       ProcessResult.playlistMismatch) :=
  C1_mismatch_drops_but_records
    ⟨none, some 0, true, none, true, none⟩ ⟨true, "item-A"⟩
    ⟨CommandType.pause, 5, 3, some 0, "item-B"⟩ 0
    rfl rfl (by decide) rfl (by decide)

/-- C7: a command reaches `PlaybackCore.applyCommand` only when the session
is enabled and the command's `EmittedAt` is at least `syncPlayEnabledAt`;
commands arriving while disabled or stamped before the enable time are
dropped with no state change, and the same holds after a
`disable()`/`enable(groupInfo)` cycle against the new enable time. -/
theorem C7_emittedAt_gate (s : ManagerState) (env : ManagerEnv)
    (cmd : PlaybackCommand) (t : Time) (m : ManagerState) (gi : GroupInfo) :
    ((processCommand s env (some cmd)).2 = ProcessResult.applied →
      ∃ t0, s.syncPlayEnabledAt = some t0 ∧ t0 ≤ cmd.EmittedAt) ∧
    (s.syncPlayEnabledAt = none →
      processCommand s env (some cmd) = (s, ProcessResult.notEnabled)) ∧
    (s.syncPlayEnabledAt = some t → cmd.EmittedAt < t →
      processCommand s env (some cmd) = (s, ProcessResult.oldCommand)) ∧
    (cmd.EmittedAt < gi.LastUpdatedAt →
      processCommand (enableSyncPlay (disableSyncPlayManager m) gi) env (some cmd) =
        (enableSyncPlay (disableSyncPlayManager m) gi, ProcessResult.oldCommand)) := by
  refine ⟨?_, ?_, ?_, ?_⟩
  · intro happ
    match hs : s.syncPlayEnabledAt with
    | none => simp [processCommand, hs] at happ
    | some t0 =>
      refine ⟨t0, rfl, ?_⟩
      by_cases h1 : cmd.EmittedAt < t0
      · simp [processCommand, hs, h1] at happ
      · exact le_of_not_lt h1
  · intro hs; simp [processCommand, hs]
  · intro hs h1; simp [processCommand, hs, h1]
  · intro hold
    simp [processCommand, enableSyncPlay, disableSyncPlayManager, hold]

theorem C7_emittedAt_gate_witness :
    processCommand
        ⟨none, none, false, none, true, none⟩ ⟨true, "item-A"⟩
        (some ⟨CommandType.unpause, 5, 3, some 0, "item-A"⟩) =
      (⟨none, none, false, none, true, none⟩, ProcessResult.notEnabled) ∧
    processCommand
        ⟨none, some 10, true, none, true, none⟩ ⟨true, "item-A"⟩
        (some ⟨CommandType.unpause, 5, 3, some 0, "item-A"⟩) =
      (⟨none, some 10, true, none, true, none⟩, ProcessResult.oldCommand) ∧
    processCommand
        (enableSyncPlay (disableSyncPlayManager
          ⟨none, some 0, true, none, true, none⟩) ⟨"g", 10⟩)
        ⟨true, "item-A"⟩
        (some ⟨CommandType.unpause, 5, 3, some 0, "item-A"⟩) =
      (enableSyncPlay (disableSyncPlayManager
          ⟨none, some 0, true, none, true, none⟩) ⟨"g", 10⟩,
        ProcessResult.oldCommand) ∧
    (∃ t0, (⟨none, some 2, true, none, true, none⟩ : ManagerState).syncPlayEnabledAt =
        some t0 ∧
      t0 ≤ (⟨CommandType.unpause, 5, 3, some 0, "item-A"⟩ : PlaybackCommand).EmittedAt) :=
  ⟨(C7_emittedAt_gate ⟨none, none, false, none, true, none⟩ ⟨true, "item-A"⟩
      ⟨CommandType.unpause, 5, 3, some 0, "item-A"⟩ 0
      initialManagerState ⟨"g", 10⟩).2.1 rfl,
   (C7_emittedAt_gate ⟨none, some 10, true, none, true, none⟩ ⟨true, "item-A"⟩
      ⟨CommandType.unpause, 5, 3, some 0, "item-A"⟩ 10
      initialManagerState ⟨"g", 10⟩).2.2.1 rfl (by decide),
   (C7_emittedAt_gate ⟨none, some 10, true, none, true, none⟩ ⟨true, "item-A"⟩
      ⟨CommandType.unpause, 5, 3, some 0, "item-A"⟩ 10
      ⟨none, some 0, true, none, true, none⟩ ⟨"g", 10⟩).2.2.2 (by decide),
   (C7_emittedAt_gate ⟨none, some 2, true, none, true, none⟩ ⟨true, "item-A"⟩
      ⟨CommandType.unpause, 5, 3, some 0, "item-A"⟩ 2
      initialManagerState ⟨"g", 10⟩).1 (by decide)⟩

/-- C8: over every event history from the initial state, a non-null
`queuedCommand` implies `syncPlayReady = false`; and the time-sync waiter
that flips `ready` to true runs the stored command through `processCommand`
exactly once and then clears `queuedCommand`. -/
theorem C8_queuedCommand_invariant :
    (∀ es : List ManagerEvent,
      (managerRun initialManagerState es).queuedCommand ≠ none →
        (managerRun initialManagerState es).syncPlayReady = false) ∧
    (∀ (s : ManagerState) (env : ManagerEnv),
      (onTimeSyncUpdate s env).1.queuedCommand = none ∧
      (onTimeSyncUpdate s env).1.syncPlayReady = true ∧
      (onTimeSyncUpdate s env).2 =
        (processCommand { s with syncPlayReady := true } env s.queuedCommand).2) := by
  refine ⟨fun es => managerRun_invariant es, fun s env => ⟨rfl, ?_, rfl⟩⟩
  show (processCommand { s with syncPlayReady := true } env s.queuedCommand).1.syncPlayReady = true
  rw [processCommand_preserves_ready]

theorem C8_queuedCommand_invariant_witness :
    (managerRun initialManagerState
      [ManagerEvent.enable ⟨"g", 0⟩,
       ManagerEvent.command ⟨true, "item-A"⟩
         (some ⟨CommandType.unpause, 5, 3, some 0, "item-A"⟩)]).syncPlayReady =
      false :=
  C8_queuedCommand_invariant.1
    [ManagerEvent.enable ⟨"g", 0⟩,
     ManagerEvent.command ⟨true, "item-A"⟩
       (some ⟨CommandType.unpause, 5, 3, some 0, "item-A"⟩)]
    (by decide)

/-- C10: `processCommand` on a null command returns immediately with no state
change, so the ready-flush in `enableSyncPlay` is a harmless no-op when no
command was queued: it only flips `syncPlayReady` and re-clears
`queuedCommand`. -/
theorem C10_null_command_noop :
    (∀ (s : ManagerState) (env : ManagerEnv),
      processCommand s env none = (s, ProcessResult.noCommand)) ∧
    (∀ (s : ManagerState) (env : ManagerEnv), s.queuedCommand = none →
      onTimeSyncUpdate s env =
        ({ s with syncPlayReady := true, queuedCommand := none },
          ProcessResult.noCommand)) := by
  refine ⟨fun s env => rfl, fun s env hq => ?_⟩
  simp only [onTimeSyncUpdate, hq]
  rfl

theorem C10_null_command_noop_witness :
    onTimeSyncUpdate ⟨none, some 0, false, none, true, none⟩ ⟨true, "item-A"⟩ =
      (⟨none, some 0, true, none, true, none⟩, ProcessResult.noCommand) :=
  C10_null_command_noop.2 ⟨none, some 0, false, none, true, none⟩
    ⟨true, "item-A"⟩ rfl

/-- C2 (counterexample): `disableSyncPlay` does not cancel a pending
scheduled-command timer; a previously armed unpause callback that fires after
disabling still issues an unpause to the player. -/
theorem C2_counterexample :
    (disableSyncPlay initialManagerState
        { exampleCoreState true none with
            scheduledCommandTimeout := some ScheduledKind.unpauseCb }).2.scheduledCommandTimeout =
      some ScheduledKind.unpauseCb ∧
    Effect.playerUnpause ∈
      (fireScheduledCommand (exampleCoreEnv 100)
        (disableSyncPlay initialManagerState
          { exampleCoreState true none with
              scheduledCommandTimeout := some ScheduledKind.unpauseCb }).2).2 := by
  decide

/-- C2 (amended): after `disableSyncPlay()` the session fields are cleared
(`syncPlayEnabledAt`, `syncPlayReady`, `lastPlaybackCommand`,
`queuedCommand`, `followingGroupPlayback` reset) and the core's `syncEnabled`
flag is false, but none of the pending timer slots (scheduled command,
sync-enable, buffering-notify) is cancelled, so a previously armed callback
can still drive the player. -/
theorem C2_disable_clears_state_not_timers (m : ManagerState) (c : CoreState) :
    (disableSyncPlay m c).1.syncPlayEnabledAt = none ∧
    (disableSyncPlay m c).1.syncPlayReady = false ∧
    (disableSyncPlay m c).1.followingGroupPlayback = true ∧
    (disableSyncPlay m c).1.lastPlaybackCommand = none ∧
    (disableSyncPlay m c).1.queuedCommand = none ∧
    (disableSyncPlay m c).2.syncEnabled = false ∧
    (disableSyncPlay m c).2.scheduledCommandTimeout = c.scheduledCommandTimeout ∧
    (disableSyncPlay m c).2.syncTimeoutArmed = c.syncTimeoutArmed ∧
    (disableSyncPlay m c).2.notifyBufferingArmed = c.notifyBufferingArmed :=
  ⟨rfl, rfl, rfl, rfl, rfl, rfl, rfl, rfl, rfl⟩

/-- C3 (counterexample): the duplicate-repair branch of `applyCommand` runs
before the `isRemote()` check, so a duplicate Unpause command whose local
firing time is past, received while the player reports paused, drives the
local player even in remote-self-managed mode. -/
theorem C3_counterexample :
    Effect.playerUnpause ∈
      (applyCommand
        { exampleCoreEnv 100 with isRemote := true }
        (exampleCoreState true (some exampleUnpauseCommand))
        exampleUnpauseCommand).2 := by
  decide

/-- C3 (amended): when the player wrapper reports `isRemote()`, a command
that is NOT a duplicate of `lastCommand` is recorded into `lastCommand` with
no scheduling and no local player action; but the duplicate-repair path is
checked first, so a duplicate with a past firing time and diverging player
state still schedules local player actions. -/
theorem C3_remote_short_circuit (env : CoreEnv) (s : CoreState)
    (command : PlaybackCommand)
    (hrem : env.isRemote = true)
    (hdup : isDuplicate s command = false) :
    applyCommand env s command = ({ s with lastCommand := some command }, []) := by
  simp [applyCommand, hdup, hrem]

theorem C3_remote_short_circuit_witness :
    applyCommand { exampleCoreEnv 100 with isRemote := true }
        (exampleCoreState true none) exampleUnpauseCommand =
      ({ exampleCoreState true none with lastCommand := some exampleUnpauseCommand },
        []) :=
  C3_remote_short_circuit { exampleCoreEnv 100 with isRemote := true }
    (exampleCoreState true none) exampleUnpauseCommand rfl (by decide)

/-- C4: a second `applyCommand` with a command equal to `lastCommand` on
`When`, `PositionTicks`, `Command` and `PlaylistItemId`, whose derived local
firing time `remoteDateToLocal(When)` is still in the future, changes
nothing: same core state, no timer armed, no player action. -/
theorem C4_duplicate_future_ignored (env : CoreEnv) (s : CoreState)
    (command : PlaybackCommand)
    (hdup : isDuplicate s command = true)
    (hfut : remoteDateToLocal env command.When > env.now) :
    applyCommand env s command = (s, []) := by
  simp [applyCommand, hdup, hfut]

theorem C4_duplicate_future_ignored_witness :
    applyCommand (exampleCoreEnv (-5))
        (exampleCoreState true (some exampleUnpauseCommand))
        exampleUnpauseCommand =
      (exampleCoreState true (some exampleUnpauseCommand), []) :=
  C4_duplicate_future_ignored (exampleCoreEnv (-5))
    (exampleCoreState true (some exampleUnpauseCommand))
    exampleUnpauseCommand (by decide) (by decide)

/-- C9: the SpeedToSync branch sets the rate to `1 + diff/T`, expanding the
duration to `|diff|/0.9` when `diff ≤ −T × 0.1`; for every diff in the
SpeedToSync window the computed rate is at least 0.1 (given a positive
configured duration). -/
theorem C9_speed_at_least_tenth (diffMillis T : ℚ) (hT : 0 < T)
    (hmin : 60 ≤ |diffMillis|) (hmax : |diffMillis| < 3000) :
    1 / 10 ≤ computeSpeed diffMillis T := by
  unfold computeSpeed computeSpeedToSyncTime
  by_cases h : diffMillis ≤ -T * (1 / 10)
  · have hd : diffMillis < 0 := lt_of_le_of_lt h (by nlinarith)
    have hne : diffMillis ≠ 0 := ne_of_lt hd
    rw [if_pos h, abs_of_neg hd]
    have key : diffMillis / (-diffMillis / (1 - 1 / 10)) = -(1 - 1 / 10) := by
      field_simp
      ring
    rw [key]
    norm_num
  · rw [if_neg h]
    push_neg at h
    have hdiv : -(9 / 10 : ℚ) ≤ diffMillis / T := by
      rw [le_div_iff₀ hT]
      nlinarith
    linarith

theorem C9_speed_at_least_tenth_witness :
    1 / 10 ≤ computeSpeed (-3000 / 2) 1000 :=
  C9_speed_at_least_tenth (-3000 / 2) 1000 (by norm_num) (by norm_num)
    (by norm_num)

/-- C5: with the default thresholds (`minDelaySpeedToSync = 60`,
`maxDelaySpeedToSync = 3000`, `minDelaySkipToSync = 400`), sync and sync
correction enabled, last command Unpause, an active non-buffering player,
the throttle interval elapsed and playback rate supported: a diff of 59 ms
produces no correction, a diff of exactly 60 ms triggers SpeedToSync
(a `setPlaybackRate` call), a diff of exactly 3000 ms triggers SkipToSync
(a seek to the estimated server position, no rate change), and with
`useSpeedToSync = false` a diff of 400 ms triggers SkipToSync. -/
theorem C5_drift_correction_boundaries (env : CoreEnv) (s : CoreState)
    (c : PlaybackCommand)
    (hact : env.isPlaybackActive = true)
    (hlc : s.lastCommand = some c)
    (hcu : c.Command = CommandType.unpause)
    (hbuf : s.lastPlaybackWaiting = none)
    (hthr : ¬ ((env.now - s.lastSyncTime : Int) : ℚ) < s.maxDelaySpeedToSync / 2)
    (hsync : s.syncEnabled = true)
    (hcorr : s.enableSyncCorrection = true)
    (hrate : s.playbackRateSupported = true)
    (hskip : s.useSkipToSync = true)
    (hmin : s.minDelaySpeedToSync = 60)
    (hmax : s.maxDelaySpeedToSync = 3000)
    (hminskip : s.minDelaySkipToSync = 400) :
    (s.useSpeedToSync = true → diffMillisOf env c = 59 →
      (syncPlaybackTime env s).2 = []) ∧
    (s.useSpeedToSync = true → diffMillisOf env c = 60 →
      (syncPlaybackTime env s).2 =
        [Effect.setPlaybackRate (computeSpeed 60 s.speedToSyncDuration),
         Effect.showSyncIcon "SpeedToSync"]) ∧
    (s.useSpeedToSync = true → diffMillisOf env c = 3000 →
      (syncPlaybackTime env s).2 =
        [Effect.playerSeek (serverPositionTicksOf env c),
         Effect.showSyncIcon "SkipToSync"]) ∧
    (s.useSpeedToSync = false → diffMillisOf env c = 400 →
      (syncPlaybackTime env s).2 =
        [Effect.playerSeek (serverPositionTicksOf env c),
         Effect.showSyncIcon "SkipToSync"]) := by
  have hthr9 : ¬ ((env.now : ℚ) - (s.lastSyncTime : ℚ) < 3000 / 2) := by
    intro hlt
    apply hthr
    rw [hmax]
    push_cast
    linarith
  refine ⟨?_, ?_, ?_, ?_⟩ <;> intro hsp hdiff <;>
    simp [syncPlaybackTime, hact, hlc, hcu, isBuffering, hbuf, hsync,
      hcorr, hrate, hskip, hmin, hmax, hminskip, hsp, hdiff, localSeekEff] <;>
    rw [if_neg hthr9] <;> norm_num

theorem C5_drift_correction_boundaries_witness :
    (syncPlaybackTime (exampleCoreEnv 59)
        (exampleCoreState true (some exampleUnpauseCommand))).2 = [] ∧
    (syncPlaybackTime (exampleCoreEnv 60)
        (exampleCoreState true (some exampleUnpauseCommand))).2 =
      [Effect.setPlaybackRate
          (computeSpeed 60
            (exampleCoreState true (some exampleUnpauseCommand)).speedToSyncDuration),
       Effect.showSyncIcon "SpeedToSync"] ∧
    (syncPlaybackTime (exampleCoreEnv 3000)
        (exampleCoreState true (some exampleUnpauseCommand))).2 =
      [Effect.playerSeek
          (serverPositionTicksOf (exampleCoreEnv 3000) exampleUnpauseCommand),
       Effect.showSyncIcon "SkipToSync"] ∧
    (syncPlaybackTime (exampleCoreEnv 400)
        (exampleCoreState false (some exampleUnpauseCommand))).2 =
      [Effect.playerSeek
          (serverPositionTicksOf (exampleCoreEnv 400) exampleUnpauseCommand),
       Effect.showSyncIcon "SkipToSync"] :=
  ⟨(C5_drift_correction_boundaries (exampleCoreEnv 59)
      (exampleCoreState true (some exampleUnpauseCommand)) exampleUnpauseCommand
      rfl rfl rfl rfl (by norm_num [exampleCoreEnv, exampleCoreState])
      rfl rfl rfl rfl rfl rfl rfl).1 rfl
      (by norm_num [diffMillisOf, serverPositionTicksOf, estimateCurrentTicks,
        localDateToRemote, exampleCoreEnv, exampleUnpauseCommand, ticksQ,
        TicksPerMillisecond]),
   (C5_drift_correction_boundaries (exampleCoreEnv 60)
      (exampleCoreState true (some exampleUnpauseCommand)) exampleUnpauseCommand
      rfl rfl rfl rfl (by norm_num [exampleCoreEnv, exampleCoreState])
      rfl rfl rfl rfl rfl rfl rfl).2.1 rfl
      (by norm_num [diffMillisOf, serverPositionTicksOf, estimateCurrentTicks,
        localDateToRemote, exampleCoreEnv, exampleUnpauseCommand, ticksQ,
        TicksPerMillisecond]),
   (C5_drift_correction_boundaries (exampleCoreEnv 3000)
      (exampleCoreState true (some exampleUnpauseCommand)) exampleUnpauseCommand
      rfl rfl rfl rfl (by norm_num [exampleCoreEnv, exampleCoreState])
      rfl rfl rfl rfl rfl rfl rfl).2.2.1 rfl
      (by norm_num [diffMillisOf, serverPositionTicksOf, estimateCurrentTicks,
        localDateToRemote, exampleCoreEnv, exampleUnpauseCommand, ticksQ,
        TicksPerMillisecond]),
   (C5_drift_correction_boundaries (exampleCoreEnv 400)
      (exampleCoreState false (some exampleUnpauseCommand)) exampleUnpauseCommand
      rfl rfl rfl rfl (by norm_num [exampleCoreEnv, exampleCoreState])
      rfl rfl rfl rfl rfl rfl rfl).2.2.2 rfl
      (by norm_num [diffMillisOf, serverPositionTicksOf, estimateCurrentTicks,
        localDateToRemote, exampleCoreEnv, exampleUnpauseCommand, ticksQ,
        TicksPerMillisecond])⟩

end SyncPlay
